import Mathlib

/-!
A shallow embedding, in Lean 4, of the prompt-assembly, repository-probe and
configuration layers of the git-iris command-line tool, together with theorems
checking the natural-language specification against the code.

Sources embedded (file and function names follow the Rust source):
  * `src/changelog_prompts.rs` — `create_changelog_system_prompt`,
    `create_changelog_user_prompt`, `create_release_notes_system_prompt`,
    `create_release_notes_user_prompt`, `calculate_total_metrics`;
  * `src/git.rs` — `should_exclude_file`, `get_file_statuses`,
    `get_commits_between`;
  * `src/config.rs` — `Config::update`, `ProviderConfig::default_for`.

Modelling conventions:
  * Rust `usize` counters are modelled as `Nat` (the program only adds them);
  * Rust `String` is Lean `String`; each `push_str`/`format!` chunk of a
    prompt is one element of a `List String` of segments, and the produced
    prompt is `String.join` of the segments, so the concatenation order of the
    source is preserved exactly;
  * fallible Rust code (`Result`, the `?` operator) is modelled with
    `Except`; a Rust `panic!`/`.unwrap()` on `None` is modelled by returning
    `none` from an `Option`-valued function;
  * `git2` repository state is abstracted: the status entries, the diff
    producer and the file analyzer that `get_file_statuses` consumes are
    explicit parameters, as are the revwalk output, commit lookup and commit
    analyzer consumed by `get_commits_between`.
-/

/-- Verbosity levels of the changelog/release-notes flows.  The variants are
those matched on in `src/changelog_prompts.rs` (the defining enum lives in the
absent `changelog.rs`; the spec lists the same three variants). -/
inductive DetailLevel where
  | Minimal
  | Standard
  | Detailed
deriving DecidableEq, Repr

/-- Kinds of file change.  `git.rs` constructs `Added`, `Modified`, `Deleted`;
the spec's data model adds `Renamed`. -/
inductive ChangeType where
  | Added
  | Modified
  | Deleted
  | Renamed
deriving DecidableEq, Repr

/-- Modelled from the spec: the `Display` rendering of `ChangeType` (its impl
lives in the absent `context.rs`); the spec and the prompt examples render the
variant name itself, e.g. `README.md (Modified)`. -/
def changeTypeDisplay : ChangeType → String
  | ChangeType.Added => "Added"
  | ChangeType.Modified => "Modified"
  | ChangeType.Deleted => "Deleted"
  | ChangeType.Renamed => "Renamed"

/-- Per-commit quantitative metrics, as constructed literally inside
`calculate_total_metrics` in `changelog_prompts.rs`. -/
structure ChangeMetrics where
  files_changed : Nat
  insertions : Nat
  deletions : Nat
  total_lines_changed : Nat
deriving DecidableEq, Repr

/-- One annotated file change of an analyzed commit, with exactly the fields
`create_changelog_user_prompt` reads (`new_path`, `change_type`, `analysis`). -/
structure FileChange where
  new_path : String
  change_type : ChangeType
  analysis : List String
deriving DecidableEq, Repr

/-- An analyzed commit, with exactly the fields `create_changelog_user_prompt`
reads.  `impact_score` is an `f32` in the source, rendered with the `{:.2}`
format; no claim depends on its numeric value, so it is modelled as its
rendered text (platform float formatting is outside the embedding). -/
structure AnalyzedChange where
  commit_hash : String
  author : String
  commit_message : String
  metrics : ChangeMetrics
  impact_score : String
  file_changes : List FileChange
deriving DecidableEq, Repr

/-- `calculate_total_metrics` from `changelog_prompts.rs`: a left fold over the
changes starting from the all-zero `ChangeMetrics`, adding the four fields
componentwise. -/
def calculate_total_metrics (changes : List AnalyzedChange) : ChangeMetrics :=
  changes.foldl
    (fun acc change =>
      { files_changed := acc.files_changed + change.metrics.files_changed
        insertions := acc.insertions + change.metrics.insertions
        deletions := acc.deletions + change.metrics.deletions
        total_lines_changed :=
          acc.total_lines_changed + change.metrics.total_lines_changed })
    { files_changed := 0, insertions := 0, deletions := 0,
      total_lines_changed := 0 }

/-- Componentwise sum of two `ChangeMetrics` (the operation the spec's
"Metrics additivity" property is stated with). -/
def ChangeMetrics.add (a b : ChangeMetrics) : ChangeMetrics :=
  { files_changed := a.files_changed + b.files_changed
    insertions := a.insertions + b.insertions
    deletions := a.deletions + b.deletions
    total_lines_changed := a.total_lines_changed + b.total_lines_changed }

/-- The "Overall Changes" block of `create_changelog_user_prompt`
(`changelog_prompts.rs` lines 72-82), one pushed chunk per list element. -/
def overall_changes_segments (changes : List AnalyzedChange) : List String :=
  ["Overall Changes:\n",
   "Total commits: " ++ (toString changes.length ++ "\n"),
   "Files changed: " ++
     (toString (calculate_total_metrics changes).files_changed ++ "\n"),
   "Total lines changed: " ++
     (toString (calculate_total_metrics changes).total_lines_changed ++ "\n"),
   "Insertions: " ++
     (toString (calculate_total_metrics changes).insertions ++ "\n"),
   "Deletions: " ++
     (toString (calculate_total_metrics changes).deletions ++ "\n"),
   "\n"]

/-- One `  - path (change_type)` line of a file-changes list. -/
def file_line (fc : FileChange) : String :=
  "  - " ++ (fc.new_path ++ (" (" ++ (changeTypeDisplay fc.change_type ++ ")\n")))

/-- One `    * observation` line under a file in the Detailed listing. -/
def analysis_line (a : String) : String :=
  "    * " ++ (a ++ "\n")

/-- The per-commit block of `create_changelog_user_prompt`
(`changelog_prompts.rs` lines 84-128): the fixed header lines, then the
`detail_level` match, then the blank-line separator. -/
def commit_block_segments (change : AnalyzedChange) (detail_level : DetailLevel) :
    List String :=
  ["Commit: " ++ (change.commit_hash ++ "\n"),
   "Author: " ++ (change.author ++ "\n"),
   "Message: " ++ (change.commit_message ++ "\n"),
   "Files changed: " ++ (toString change.metrics.files_changed ++ "\n"),
   "Lines changed: " ++ (toString change.metrics.total_lines_changed ++ "\n"),
   "Insertions: " ++ (toString change.metrics.insertions ++ "\n"),
   "Deletions: " ++ (toString change.metrics.deletions ++ "\n"),
   "Impact score: " ++ (change.impact_score ++ "\n")]
  ++ (match detail_level with
      | DetailLevel.Minimal => []
      | DetailLevel.Standard =>
          "File changes summary:\n" :: change.file_changes.map file_line
      | DetailLevel.Detailed =>
          "Detailed file changes:\n" ::
            change.file_changes.flatMap
              (fun fc => file_line fc :: fc.analysis.map analysis_line))
  ++ ["\n"]

/-- The adjective the closing directive selects by detail level. -/
def detail_adjective : DetailLevel → String
  | DetailLevel.Minimal => "concise"
  | DetailLevel.Standard => "comprehensive"
  | DetailLevel.Detailed => "highly detailed"

/-- The chunks pushed by `create_changelog_user_prompt`
(`changelog_prompts.rs` lines 60-154), in push order. -/
def changelog_user_prompt_segments (changes : List AnalyzedChange)
    (detail_level : DetailLevel) (fromRev toRev : String)
    (readme_summary : Option String) : List String :=
  ["Based on the following changes from " ++
     (fromRev ++ (" to " ++ (toRev ++ ", generate a changelog:\n\n")))]
  ++ overall_changes_segments changes
  ++ changes.flatMap (fun change => commit_block_segments change detail_level)
  ++ (match readme_summary with
      | some summary => ["\nProject README Summary:\n", summary, "\n\n"]
      | none => [])
  ++ ["Please generate a " ++
        (detail_adjective detail_level ++
          (" changelog for the changes from " ++
            (fromRev ++ (" to " ++
              (toRev ++
                ", focusing on the most significant updates and their impact on the project. "))))),
      "Group the changes by type and order them by significance. ",
      "For each change, provide a clear description of what was changed and, where possible, why it matters to users or developers. ",
      "Include the overall metrics at the beginning of the changelog to give context about the scope of changes in this release."]
  ++ (if readme_summary.isSome then
        [" Use the README summary to provide context about the project and ensure the changelog reflects the project\x27s goals and main features."]
      else [])

/-- `create_changelog_user_prompt` from `changelog_prompts.rs`: the
concatenation of its pushed chunks. -/
def create_changelog_user_prompt (changes : List AnalyzedChange)
    (detail_level : DetailLevel) (fromRev toRev : String)
    (readme_summary : Option String) : String :=
  String.join
    (changelog_user_prompt_segments changes detail_level fromRev toRev
      readme_summary)

/-- The chunks pushed by `create_release_notes_user_prompt`
(`changelog_prompts.rs` lines 201-254), in push order.  Note that the
changelog text is embedded verbatim and no totals block is computed here. -/
def release_notes_user_prompt_segments (changelog : String)
    (detail_level : DetailLevel) (fromRev toRev : String)
    (readme_summary : Option String) : List String :=
  ["Based on the following changelog for changes from " ++
     (fromRev ++ (" to " ++ (toRev ++ ", generate release notes:\n\n"))),
   changelog]
  ++ (match readme_summary with
      | some summary => ["\n\nProject README Summary:\n", summary]
      | none => [])
  ++ ["\n\nPlease generate " ++
        (detail_adjective detail_level ++
          (" release notes for the changes from " ++
            (fromRev ++ (" to " ++
              (toRev ++ " based on this changelog and project summary. "))))),
      "Include a high-level summary of the release, major changes, and any breaking changes or important upgrade notes. ",
      "Focus on the impact and benefits of the changes to users and developers. ",
      "Incorporate the overall metrics to give context about the scope of this release. "]
  ++ [match detail_level with
      | DetailLevel.Minimal =>
          "Keep the release notes brief and focused on the most significant changes."
      | DetailLevel.Standard =>
          "Provide a balanced overview of all important changes, with some details on major features or fixes."
      | DetailLevel.Detailed =>
          "Include detailed explanations of changes, their rationale, and potential impact on the project or workflow."]
  ++ (if readme_summary.isSome then
        [" Ensure the release notes align with the project\x27s overall goals and main features as described in the README summary."]
      else [])

/-- `create_release_notes_user_prompt` from `changelog_prompts.rs`. -/
def create_release_notes_user_prompt (changelog : String)
    (detail_level : DetailLevel) (fromRev toRev : String)
    (readme_summary : Option String) : String :=
  String.join
    (release_notes_user_prompt_segments changelog detail_level fromRev toRev
      readme_summary)

/-- Per-provider configuration (`config.rs`).  The `HashMap<String, String>`
of additional parameters is modelled as an association list in which the first
binding of a key is its value. -/
structure ProviderConfig where
  api_key : String
  model : String
  additional_params : List (String × String)
  custom_token_limit : Option Nat
deriving DecidableEq, Repr

/-- The application configuration (`config.rs`), with the provider map
modelled as an association list.  `config.rs` spells the free-form
instructions field `custom_instructions` while `changelog_prompts.rs` reads it
as `config.instructions` (the two files are from slightly different snapshots
of the same struct); one field models both spellings. -/
structure Config where
  default_provider : String
  providers : List (String × ProviderConfig)
  use_gitmoji : Bool
  instructions : String
deriving DecidableEq, Repr

/-- Modelled from the spec: `gitmoji.rs` is absent from the sources.  The spec
treats "gitmoji table contents" as out of scope ("an opaque reference table"),
so the table is a fixed placeholder string; no claim depends on its text. -/
def get_gitmoji_list : String :=
  ":art: - Improve structure / format of the code\n:zap: - Improve performance\n"

/-- The opening fixed text of the changelog system prompt
(`changelog_prompts.rs` lines 10-35).  Backslash line continuations of the
Rust literal elide the newline and the following indentation; unescaped line
breaks keep both, hence the embedded eight-space indents. -/
def changelog_system_base : String :=
  "You are an AI assistant specialized in generating clear, concise, and informative changelogs for software projects. Your task is to create a well-structured changelog based on the provided commit information and analysis. Aim for a tone that is professional, approachable, and authoritative, keeping in mind any additional user instructions.\n\n        Work step-by-step and follow these guidelines exactly:\n\n        1. Focus on the impact and significance of the changes in addition to technical details.\n        2. Use the present tense and imperative mood.\n        3. Group changes by type (e.g., \x27Features\x27, \x27Bug Fixes\x27, \x27Performance Improvements\x27, \x27Refactoring\x27).\n        4. For each entry, include the commit hash at the end in parentheses.\n        5. Ensure the changelog is well-structured and easy to read.\n        6. If a change is particularly significant or breaking, make a note of it.\n        7. Be as detailed as possible about each change without speculating.\n        8. Avoid common cliché words (like \x27enhance\x27, \x27streamline\x27, \x27leverage\x27, etc) and phrases.\n        9. Do not speculate about the purpose of a change or add any information not directly supported by the context.\n        10. If there\x27s not enough information to create a complete, authoritative entry, state only what can be confidently determined from the context.\n        11. Use the provided impact scores to prioritize and emphasize more significant changes.\n        12. Incorporate file-level analysis to provide more context about the nature of the changes.\n        13. Consider the number of files changed, insertions, and deletions when describing the scope of a change.\n        14. Mention any changes to project dependencies or build configurations.\n        15. Highlight changes that affect multiple parts of the codebase or have cross-cutting concerns.\n        16. Include a summary of the overall metrics (total commits, files changed, lines added/deleted) at the beginning of the changelog.\n        17. Never include a conclusion or final summary statement.\n        18. NO YAPPING!"

/-- The gitmoji lead-in of the changelog system prompt
(`changelog_prompts.rs` lines 38-40); `get_gitmoji_list()` is pushed right
after it. -/
def changelog_emoji_intro : String :=
  "\n\nWhen generating the changelog, include tasteful, appropriate, and intelligent use of emojis to add visual interest.\n Here are some examples of emojis you can use:\n"

/-- The closing fixed text of the changelog system prompt
(`changelog_prompts.rs` lines 51-55). -/
def changelog_system_tail : String :=
  "\n\nYou will be provided with detailed information about each change, including file-level analysis and impact scores. Use this information to create a comprehensive and insightful changelog. Adjust the level of detail based on the specified detail level (Minimal, Standard, or Detailed)."

/-- The chunk appended for non-empty user instructions
(`changelog_prompts.rs` lines 45-48 and 192-195). -/
def instructions_chunk (instructions : String) : String :=
  "\n\nAdditional instructions:\n" ++ (instructions ++ "\n\n")

/-- `create_changelog_system_prompt` from `changelog_prompts.rs`: the base
text, then the gitmoji block when `use_gitmoji` is set, then the user
instructions when non-empty, then the fixed tail. -/
def create_changelog_system_prompt (config : Config) : String :=
  let use_emoji := config.use_gitmoji
  let instructions := config.instructions
  let prompt := changelog_system_base
  let prompt :=
    if use_emoji then prompt ++ (changelog_emoji_intro ++ get_gitmoji_list)
    else prompt
  let prompt :=
    if !instructions.isEmpty then prompt ++ instructions_chunk instructions
    else prompt
  prompt ++ changelog_system_tail

/-- The fixed text of the release-notes system prompt
(`changelog_prompts.rs` lines 161-182). -/
def release_notes_system_base : String :=
  "You are an AI assistant specialized in generating comprehensive and user-friendly release notes for software projects. Your task is to create detailed release notes based on the provided changelog. Aim for a tone that is professional, approachable, and authoritative, keeping in mind any additional user instructions.\n\n        Work step-by-step and follow these guidelines exactly:\n\n        1. Provide a high-level summary of the release, highlighting key features, improvements, and fixes.\n        2. Include a bulleted list of major changes, grouped by type (e.g., \x27New Features\x27, \x27Improvements\x27, \x27Bug Fixes\x27).\n        3. Note any breaking changes or important upgrade notes.\n        4. Never include a conclusion or final summary statement.\n        5. Ensure the release notes are informative, well-structured, and suitable for both technical and non-technical readers.\n        6. Focus on the impact and benefits of the changes rather than implementation details.\n        7. Avoid common cliché words (like \x27enhance\x27, \x27streamline\x27, \x27leverage\x27, etc) and phrases.\n        8. Do not speculate about the purpose of a change or add any information not directly supported by the context.\n        9. If there\x27s not enough information to create a complete, authoritative entry, state only what can be confidently determined from the context.\n        10. Highlight any significant performance improvements or optimizations.\n        11. Mention any changes to dependencies or system requirements.\n        12. Include any relevant documentation updates or new resources for users.\n        13. Incorporate the overall metrics (total commits, files changed, lines added/deleted) to give context about the scope of the release.\n        14. NO YAPPING!"

/-- The gitmoji lead-in of the release-notes system prompt
(`changelog_prompts.rs` lines 185-187). -/
def release_notes_emoji_intro : String :=
  "\n\nWhen generating the release notes, include tasteful, appropriate, and intelligent use of emojis to add visual interest.\n Here are some examples of emojis you can use:\n"

/-- `create_release_notes_system_prompt` from `changelog_prompts.rs`: the base
text, then the gitmoji block when `use_gitmoji` is set, then the user
instructions when non-empty; no fixed tail. -/
def create_release_notes_system_prompt (config : Config) : String :=
  let use_emoji := config.use_gitmoji
  let instructions := config.instructions
  let prompt := release_notes_system_base
  let prompt :=
    if use_emoji then prompt ++ (release_notes_emoji_intro ++ get_gitmoji_list)
    else prompt
  let prompt :=
    if !instructions.isEmpty then prompt ++ instructions_chunk instructions
    else prompt
  prompt

/-- The exclusion pattern list of `should_exclude_file` (`git.rs` lines
79-99).  Every Rust pattern there is a literal-character regex (the only
metacharacter use is `\.`, an escaped dot), so each is recorded here with the
escaping resolved. -/
def exclude_patterns : List String :=
  [".git", ".svn", ".hg", ".DS_Store", "node_modules", "target", "build",
   "dist", ".vscode", ".idea", ".vs", "package-lock.json", ".lock", ".log",
   ".tmp", ".temp", ".swp", ".min.js"]

/-- `Regex::new(pattern).unwrap().is_match(path)` for a literal-character
pattern: an unanchored regex of plain characters matches a string exactly when
the pattern occurs in it as a contiguous substring.  (`Regex::new` cannot fail
on the patterns of `exclude_patterns`.) -/
def regex_matches (pattern path : String) : Bool :=
  decide (pattern.data <:+: path.data)

/-- `should_exclude_file` from `git.rs`: true when any exclusion pattern
matches the path. -/
def should_exclude_file (path : String) : Bool :=
  exclude_patterns.any (fun pattern => regex_matches pattern path)

/-- A staged file record (`context.rs` struct as constructed in `git.rs`
lines 139-158). -/
structure StagedFile where
  path : String
  change_type : ChangeType
  diff : String
  analysis : List String
  content_excluded : Bool
deriving DecidableEq, Repr

/-- The `git2` status flags that `get_file_statuses` inspects on an entry. -/
structure EntryStatus where
  index_new : Bool
  index_modified : Bool
  index_deleted : Bool
  wt_new : Bool
  wt_modified : Bool
  wt_deleted : Bool
deriving DecidableEq, Repr

/-- One entry of `repo.statuses(...)` as consumed by `get_file_statuses`:
its path and its status flags. -/
structure StatusEntry where
  path : String
  status : EntryStatus
deriving DecidableEq, Repr

/-- `get_file_statuses` from `git.rs` (lines 110-165), with the repository
abstracted: `getDiff` stands for `get_diff_for_file(repo, path, true)` and
`analyze` for `file_analyzers::get_analyzer(path).analyze(path, staged_file)`.
Index-changed entries become `StagedFile`s (with the exclusion policy applied
before the diff is taken); worktree-changed entries become unstaged paths; a
failing diff aborts the whole call, as `?` does in the source. -/
def get_file_statuses {ε : Type} (getDiff : String → Except ε String)
    (analyze : String → StagedFile → List String) :
    List StatusEntry → Except ε (List StagedFile × List String)
  | [] => Except.ok ([], [])
  | entry :: rest =>
    if entry.status.index_new || entry.status.index_modified ||
        entry.status.index_deleted then
      let change_type :=
        if entry.status.index_new then ChangeType.Added
        else if entry.status.index_modified then ChangeType.Modified
        else ChangeType.Deleted
      let should_exclude := should_exclude_file entry.path
      (if should_exclude then Except.ok "[Content excluded]"
       else getDiff entry.path).bind
        (fun diff =>
          let staged_file : StagedFile :=
            { path := entry.path, change_type := change_type, diff := diff,
              analysis := [], content_excluded := should_exclude }
          let analysis :=
            if should_exclude then ["[Analysis excluded]"]
            else analyze entry.path staged_file
          (get_file_statuses getDiff analyze rest).map
            (fun res => ({ staged_file with analysis := analysis } :: res.1,
                         res.2)))
    else if entry.status.wt_modified || entry.status.wt_new ||
        entry.status.wt_deleted then
      (get_file_statuses getDiff analyze rest).map
        (fun res => (res.1, entry.path :: res.2))
    else get_file_statuses getDiff analyze rest

/-- `get_commits_between` from `git.rs` (lines 58-76), after the revwalk is
set up: `walk` is the revwalk's output stream (each item a commit id or an
error), `find_commit` stands for `repo.find_commit` and `analyze_commit` for
`analyzer.analyze_commit`.  The source pipes the stream through three
`filter_map(..ok())` stages and wraps the survivors in `Ok`. -/
def get_commits_between {ε Oid Commit : Type} (walk : List (Except ε Oid))
    (find_commit : Oid → Except ε Commit)
    (analyze_commit : Commit → Except ε AnalyzedChange) :
    Except ε (List AnalyzedChange) :=
  Except.ok
    (((walk.filterMap Except.toOption).filterMap
        (fun id => (find_commit id).toOption)).filterMap
      (fun commit => (analyze_commit commit).toOption))

/-- `HashMap::insert` on an association list: the new binding shadows (and
here replaces) any previous binding of the key. -/
def assocInsert {α : Type} (m : List (String × α)) (k : String) (v : α) :
    List (String × α) :=
  (k, v) :: m.filter (fun p => !(p.fst == k))

/-- `HashMap::extend` on association lists: every binding of `new` is
inserted into `old`, overwriting previous bindings of the same key. -/
def assocExtend (old new : List (String × String)) : List (String × String) :=
  new.foldl (fun acc p => assocInsert acc p.fst p.snd) old

/-- `ProviderConfig::default_for` from `config.rs` (lines 148-164), with
`ProviderRegistry::default().get_default_model` abstracted as the
`get_default_model` parameter (`provider_registry.rs` is absent from the
sources).  The `panic!` on a provider missing from the registry is modelled
as `none`. -/
def ProviderConfig.default_for (get_default_model : String → Option String)
    (provider : String) : Option ProviderConfig :=
  match get_default_model provider with
  | none => none
  | some default_model =>
      some { api_key := "", model := default_model, additional_params := [],
             custom_token_limit := none }

/-- Modelled from the spec: `provider_registry.rs` is absent.  Per §4.7 the
registry is an immutable map from provider name to default model whose
`get_default_model` lookup is fatal on missing entries, and per §3/§7 the
known remote providers are "openai" and "claude".  The model strings
themselves are immaterial placeholders. -/
def registry_default_models : String → Option String
  | "openai" => some "openai-default-model"
  | "claude" => some "claude-default-model"
  | _ => none

/-- `Config::update` from `config.rs` (lines 83-123).  A `none` result models
a panic: either the `.unwrap()` on `providers.get_mut(&default_provider)` or
the `panic!` inside `ProviderConfig::default_for`.  The in-place mutation of
the looked-up `ProviderConfig` is modelled by reading it, applying the field
updates, and writing it back under the same key. -/
def Config.update (get_default_model : String → Option String) (cfg : Config)
    (provider : Option String) (api_key : Option String)
    (model : Option String)
    (additional_params : Option (List (String × String)))
    (use_gitmoji : Option Bool) (custom_instructions : Option String)
    (token_limit : Option Nat) : Option Config :=
  let step1 : Option Config :=
    match provider with
    | none => some cfg
    | some p =>
        let cfg1 := { cfg with default_provider := p }
        if (cfg1.providers.lookup p).isSome then some cfg1
        else
          match ProviderConfig.default_for get_default_model p with
          | none => none
          | some pc =>
              some { cfg1 with providers := assocInsert cfg1.providers p pc }
  step1.bind (fun cfg1 =>
    match cfg1.providers.lookup cfg1.default_provider with
    | none => none
    | some provider_config =>
        let provider_config :=
          match api_key with
          | some key => { provider_config with api_key := key }
          | none => provider_config
        let provider_config :=
          match model with
          | some m => { provider_config with model := m }
          | none => provider_config
        let provider_config :=
          match additional_params with
          | some params =>
              { provider_config with
                  additional_params :=
                    assocExtend provider_config.additional_params params }
          | none => provider_config
        let cfg2 :=
          match use_gitmoji with
          | some gitmoji => { cfg1 with use_gitmoji := gitmoji }
          | none => cfg1
        let cfg3 :=
          match custom_instructions with
          | some instr => { cfg2 with instructions := instr }
          | none => cfg2
        let provider_config :=
          match token_limit with
          | some limit =>
              { provider_config with custom_token_limit := some limit }
          | none => provider_config
        some { cfg3 with
                 providers :=
                   assocInsert cfg3.providers cfg3.default_provider
                     provider_config })

/-! ### General helper lemmas -/

lemma join_cons (s : String) (l : List String) :
    String.join (s :: l) = s ++ String.join l := by
  rw [String.join_eq, String.join_eq]; rfl

lemma join_append (a b : List String) :
    String.join (a ++ b) = String.join a ++ String.join b := by
  induction a with
  | nil =>
      have h : String.join ([] : List String) = "" := rfl
      simp [h]
  | cons s rest ih =>
      rw [List.cons_append, join_cons, join_cons, ih, String.append_assoc]

/-- Two strings with conflicting prefixes are different: if the first `k`
characters of `a` and `b` differ, then `a ++ x ≠ b ++ y`. -/
lemma append_ne_of_take {k : Nat} {a b : String} (x y : String)
    (h1 : k ≤ a.data.length) (h2 : k ≤ b.data.length)
    (h3 : a.data.take k ≠ b.data.take k) : a ++ x ≠ b ++ y := by
  intro h
  apply h3
  have hd := congrArg String.data h
  rw [String.data_append, String.data_append] at hd
  calc a.data.take k = (a.data ++ x.data).take k :=
        (List.take_append_of_le_length h1).symm
    _ = (b.data ++ y.data).take k := by rw [hd]
    _ = b.data.take k := List.take_append_of_le_length h2

/-- Variant of `append_ne_of_take` against a plain string on the right. -/
lemma append_ne_of_take_lit {k : Nat} {a b : String} (x : String)
    (h1 : k ≤ a.data.length) (h2 : k ≤ b.data.length)
    (h3 : a.data.take k ≠ b.data.take k) : a ++ x ≠ b := by
  intro h
  apply h3
  have hd := congrArg String.data h
  rw [String.data_append] at hd
  calc a.data.take k = (a.data ++ x.data).take k :=
        (List.take_append_of_le_length h1).symm
    _ = b.data.take k := by rw [hd]

/-! ### Metrics aggregation (C2, C3) -/

lemma calculate_step_eq (acc : ChangeMetrics) (change : AnalyzedChange) :
    ({ files_changed := acc.files_changed + change.metrics.files_changed,
       insertions := acc.insertions + change.metrics.insertions,
       deletions := acc.deletions + change.metrics.deletions,
       total_lines_changed :=
         acc.total_lines_changed + change.metrics.total_lines_changed } :
      ChangeMetrics) = acc.add change.metrics := rfl

lemma ChangeMetrics.add_zero (m : ChangeMetrics) :
    m.add { files_changed := 0, insertions := 0, deletions := 0,
            total_lines_changed := 0 } = m := by
  cases m; simp [ChangeMetrics.add]

lemma ChangeMetrics.zero_add (m : ChangeMetrics) :
    ({ files_changed := 0, insertions := 0, deletions := 0,
       total_lines_changed := 0 } : ChangeMetrics).add m = m := by
  cases m; simp [ChangeMetrics.add]

lemma ChangeMetrics.add_assoc (a b c : ChangeMetrics) :
    (a.add b).add c = a.add (b.add c) := by
  cases a; cases b; cases c; simp [ChangeMetrics.add, Nat.add_assoc]

lemma calculate_total_metrics_shift (l : List AnalyzedChange) :
    ∀ m : ChangeMetrics,
      l.foldl (fun acc change => acc.add change.metrics) m =
        m.add (calculate_total_metrics l) := by
  induction l with
  | nil => intro m; simp [calculate_total_metrics, ChangeMetrics.add_zero]
  | cons c rest ih =>
      intro m
      show rest.foldl _ (m.add c.metrics) = _
      rw [ih (m.add c.metrics)]
      have hc : calculate_total_metrics (c :: rest) =
          rest.foldl (fun acc change => acc.add change.metrics)
            ({ files_changed := 0, insertions := 0, deletions := 0,
               total_lines_changed := 0 : ChangeMetrics }.add c.metrics) := rfl
      rw [hc, ih, ChangeMetrics.zero_add, ChangeMetrics.add_assoc]

lemma calculate_total_metrics_eq_fold (l : List AnalyzedChange) :
    calculate_total_metrics l =
      l.foldl (fun acc change => acc.add change.metrics)
        { files_changed := 0, insertions := 0, deletions := 0,
          total_lines_changed := 0 } := rfl

/-- C2: the metrics aggregation is a pure fold: it distributes over any
partition of the commit list into a first and a second part, and on the empty
list it returns the all-zero `ChangeMetrics`. -/
theorem C2_metrics_additivity (A B : List AnalyzedChange) :
    calculate_total_metrics (A ++ B) =
      (calculate_total_metrics A).add (calculate_total_metrics B) ∧
    calculate_total_metrics ([] : List AnalyzedChange) =
      { files_changed := 0, insertions := 0, deletions := 0,
        total_lines_changed := 0 } := by
  constructor
  · rw [calculate_total_metrics_eq_fold, calculate_total_metrics_eq_fold,
      List.foldl_append]
    rw [← calculate_total_metrics_eq_fold]
    exact calculate_total_metrics_shift B (calculate_total_metrics A)
  · rfl

/-! ### The "Overall Changes" block in the user prompts (C1, C3) -/

/-- The "Overall Changes" block as one string. -/
def overall_changes_block (changes : List AnalyzedChange) : String :=
  String.join (overall_changes_segments changes)

/-- The changelog user prompt always contains the "Overall Changes" block as
a contiguous substring (it is the second group of pushed chunks). -/
lemma changelog_prompt_overall (changes : List AnalyzedChange)
    (detail_level : DetailLevel) (fromRev toRev : String)
    (readme_summary : Option String) :
    ∃ s u, create_changelog_user_prompt changes detail_level fromRev toRev
        readme_summary = s ++ (overall_changes_block changes ++ u) := by
  unfold create_changelog_user_prompt changelog_user_prompt_segments
  rw [join_append, join_append, join_append, join_append, join_append]
  simp only [String.append_assoc]
  exact ⟨_, _, rfl⟩

/-- Unfolding of the "Overall Changes" block into its literal text around the
aggregated numbers. -/
lemma overall_changes_block_eq (changes : List AnalyzedChange) :
    overall_changes_block changes =
      "Overall Changes:\n" ++
        (("Total commits: " ++ (toString changes.length ++ "\n")) ++
          (("Files changed: " ++
              (toString (calculate_total_metrics changes).files_changed ++
                "\n")) ++
            (("Total lines changed: " ++
                (toString
                    (calculate_total_metrics changes).total_lines_changed ++
                  "\n")) ++
              (("Insertions: " ++
                  (toString (calculate_total_metrics changes).insertions ++
                    "\n")) ++
                (("Deletions: " ++
                    (toString (calculate_total_metrics changes).deletions ++
                      "\n")) ++
                  "\n"))))) := by
  unfold overall_changes_block overall_changes_segments
  rw [join_cons, join_cons, join_cons, join_cons, join_cons, join_cons,
    join_cons]
  rfl

/-- If a substring occurrence is known in `x`, it persists under prepending. -/
lemma exists_split_cons (a x B : String) (h : ∃ s t, x = s ++ (B ++ t)) :
    ∃ s t, a ++ x = s ++ (B ++ t) := by
  obtain ⟨s, t, rfl⟩ := h
  exact ⟨a ++ s, t, by rw [String.append_assoc]⟩

/-- C1 (amended): the changelog user prompt contains an "Overall Changes"
block whose numbers are the length of the input and the componentwise totals
of `calculate_total_metrics` on that same input; the release-notes user
prompt contains such a block exactly insofar as the changelog text passed to
it does, since it embeds that text verbatim and computes no totals itself. -/
theorem C1_prompt_totals :
    (∀ (changes : List AnalyzedChange) (detail_level : DetailLevel)
        (fromRev toRev : String) (readme_summary : Option String),
      ∃ s u, create_changelog_user_prompt changes detail_level fromRev toRev
          readme_summary = s ++ (overall_changes_block changes ++ u)) ∧
    (∀ changes : List AnalyzedChange,
      overall_changes_block changes =
        "Overall Changes:\n" ++
          (("Total commits: " ++ (toString changes.length ++ "\n")) ++
            (("Files changed: " ++
                (toString (calculate_total_metrics changes).files_changed ++
                  "\n")) ++
              (("Total lines changed: " ++
                  (toString
                      (calculate_total_metrics changes).total_lines_changed ++
                    "\n")) ++
                (("Insertions: " ++
                    (toString (calculate_total_metrics changes).insertions ++
                      "\n")) ++
                  (("Deletions: " ++
                      (toString
                          (calculate_total_metrics changes).deletions ++
                        "\n")) ++
                    "\n")))))) ∧
    (∀ (changelog : String) (detail_level : DetailLevel)
        (fromRev toRev : String) (readme_summary : Option String)
        (B u v : String),
      changelog = u ++ (B ++ v) →
      ∃ s w, create_release_notes_user_prompt changelog detail_level fromRev
          toRev readme_summary = s ++ (B ++ w)) := by
  refine ⟨changelog_prompt_overall, overall_changes_block_eq, ?_⟩
  intro changelog detail_level fromRev toRev readme_summary B u v h
  unfold create_release_notes_user_prompt release_notes_user_prompt_segments
  rw [join_append, join_append, join_append, join_append, join_cons, join_cons]
  rw [h]
  simp only [String.append_assoc]
  apply exists_split_cons
  apply exists_split_cons
  apply exists_split_cons
  apply exists_split_cons
  apply exists_split_cons
  exact ⟨_, _, rfl⟩

set_option maxRecDepth 40000 in
/-- C1 counterexample: at a concrete input, the release-notes user prompt
contains no "Overall Changes" section at all (the claim asserts it always
contains one for its input commit set). -/
theorem C1_release_notes_no_totals :
    ¬ ("Overall Changes".data <:+:
        (create_release_notes_user_prompt "" DetailLevel.Minimal "v1.0.0"
            "v1.1.0" none).data) := by
  decide

/-- C1 witness: the amended theorem applied at a concrete input whose
changelog text does contain an "Overall Changes" block. -/
theorem C1_prompt_totals_witness :
    ∃ s w, create_release_notes_user_prompt
        ("intro " ++ ("Overall Changes:\nTotal commits: 2\n" ++ " tail"))
        DetailLevel.Standard "a" "b" none =
      s ++ ("Overall Changes:\nTotal commits: 2\n" ++ w) :=
  C1_prompt_totals.2.2
    ("intro " ++ ("Overall Changes:\nTotal commits: 2\n" ++ " tail"))
    DetailLevel.Standard "a" "b" none
    "Overall Changes:\nTotal commits: 2\n" "intro " " tail" rfl

/-- The first commit of the spec's scenario 3: adds `src/x` with 10 inserted
lines. -/
def scenario3_commit1 : AnalyzedChange :=
  { commit_hash := "1111111", author := "dev", commit_message := "add src/x",
    metrics := { files_changed := 1, insertions := 10, deletions := 0,
                 total_lines_changed := 10 },
    impact_score := "0.40",
    file_changes := [{ new_path := "src/x", change_type := ChangeType.Added,
                       analysis := [] }] }

/-- The second commit of the spec's scenario 3: modifies the same `src/x`
with 2 insertions and 1 deletion. -/
def scenario3_commit2 : AnalyzedChange :=
  { commit_hash := "2222222", author := "dev",
    commit_message := "modify src/x",
    metrics := { files_changed := 1, insertions := 2, deletions := 1,
                 total_lines_changed := 3 },
    impact_score := "0.20",
    file_changes := [{ new_path := "src/x",
                       change_type := ChangeType.Modified,
                       analysis := [] }] }

/-- C3 counterexample: on the spec's two-commit scenario the "Overall
Changes" block reports `Files changed: 2` — the sum of the per-commit
`files_changed` counts — and contains no `Files changed: 1` line, so the
claimed distinct-file count of 1 is not what the code produces. -/
theorem C3_files_changed_not_distinct :
    calculate_total_metrics [scenario3_commit1, scenario3_commit2] =
      { files_changed := 2, insertions := 12, deletions := 1,
        total_lines_changed := 13 } ∧
    overall_changes_segments [scenario3_commit1, scenario3_commit2] =
      ["Overall Changes:\n", "Total commits: 2\n", "Files changed: 2\n",
       "Total lines changed: 13\n", "Insertions: 12\n", "Deletions: 1\n",
       "\n"] ∧
    "Files changed: 1\n" ∉
      overall_changes_segments [scenario3_commit1, scenario3_commit2] := by
  refine ⟨by decide, by decide, by decide⟩

/-- C3 (amended): on that scenario the "Overall Changes" block of the
changelog user prompt reads Total commits: 2, Files changed: 2 (the sum over
commits; the file `src/x` touched by both is counted twice, not
deduplicated), Total lines changed: 13, Insertions: 12, Deletions: 1. -/
theorem C3_overall_block_values :
    ∃ s u, create_changelog_user_prompt [scenario3_commit1, scenario3_commit2]
        DetailLevel.Standard "C1^" "C2" none =
      s ++
        ("Overall Changes:\nTotal commits: 2\nFiles changed: 2\nTotal lines changed: 13\nInsertions: 12\nDeletions: 1\n\n" ++
          u) := by
  obtain ⟨s, u, h⟩ :=
    changelog_prompt_overall [scenario3_commit1, scenario3_commit2]
      DetailLevel.Standard "C1^" "C2" none
  have hb : overall_changes_block [scenario3_commit1, scenario3_commit2] =
      "Overall Changes:\nTotal commits: 2\nFiles changed: 2\nTotal lines changed: 13\nInsertions: 12\nDeletions: 1\n\n" := by
    decide
  rw [hb] at h
  exact ⟨s, u, h⟩

/-! ### Detail-level gating of the per-commit blocks (C4) -/

lemma marker_not_mem_minimal (change : AnalyzedChange) :
    "File changes summary:\n" ∉
      commit_block_segments change DetailLevel.Minimal := by
  intro h
  simp only [commit_block_segments, List.cons_append, List.nil_append,
    List.mem_cons, List.not_mem_nil, or_false] at h
  rcases h with h | h | h | h | h | h | h | h | h
  · exact append_ne_of_take_lit (k := 1) _ (by decide) (by decide) (by decide)
      h.symm
  · exact append_ne_of_take_lit (k := 1) _ (by decide) (by decide) (by decide)
      h.symm
  · exact append_ne_of_take_lit (k := 1) _ (by decide) (by decide) (by decide)
      h.symm
  · exact append_ne_of_take_lit (k := 5) _ (by decide) (by decide) (by decide)
      h.symm
  · exact append_ne_of_take_lit (k := 1) _ (by decide) (by decide) (by decide)
      h.symm
  · exact append_ne_of_take_lit (k := 1) _ (by decide) (by decide) (by decide)
      h.symm
  · exact append_ne_of_take_lit (k := 1) _ (by decide) (by decide) (by decide)
      h.symm
  · exact append_ne_of_take_lit (k := 1) _ (by decide) (by decide) (by decide)
      h.symm
  · exact absurd h (by decide)

lemma file_line_not_mem_minimal (change : AnalyzedChange) (fc : FileChange) :
    file_line fc ∉ commit_block_segments change DetailLevel.Minimal := by
  intro h
  simp only [commit_block_segments, file_line, List.cons_append,
    List.nil_append, List.mem_cons, List.not_mem_nil, or_false] at h
  rcases h with h | h | h | h | h | h | h | h | h
  · exact append_ne_of_take (k := 1) _ _ (by decide) (by decide) (by decide) h
  · exact append_ne_of_take (k := 1) _ _ (by decide) (by decide) (by decide) h
  · exact append_ne_of_take (k := 1) _ _ (by decide) (by decide) (by decide) h
  · exact append_ne_of_take (k := 1) _ _ (by decide) (by decide) (by decide) h
  · exact append_ne_of_take (k := 1) _ _ (by decide) (by decide) (by decide) h
  · exact append_ne_of_take (k := 1) _ _ (by decide) (by decide) (by decide) h
  · exact append_ne_of_take (k := 1) _ _ (by decide) (by decide) (by decide) h
  · exact append_ne_of_take (k := 1) _ _ (by decide) (by decide) (by decide) h
  · exact append_ne_of_take_lit (k := 1) _ (by decide) (by decide) (by decide)
      h

lemma file_line_mem_standard (change : AnalyzedChange) (fc : FileChange)
    (hfc : fc ∈ change.file_changes) :
    file_line fc ∈ commit_block_segments change DetailLevel.Standard :=
  List.mem_append_left _
    (List.mem_append_right _
      (List.mem_cons_of_mem _ (List.mem_map_of_mem _ hfc)))

lemma marker_mem_standard (change : AnalyzedChange) :
    "File changes summary:\n" ∈
      commit_block_segments change DetailLevel.Standard :=
  List.mem_append_left _
    (List.mem_append_right _ (List.mem_cons_self _ _))

lemma detailed_block_decomp (change : AnalyzedChange) (fc : FileChange)
    (hfc : fc ∈ change.file_changes) :
    ∃ pre post, commit_block_segments change DetailLevel.Detailed =
      pre ++ ((file_line fc :: fc.analysis.map analysis_line) ++ post) := by
  obtain ⟨l1, l2, hsplit⟩ := List.append_of_mem hfc
  refine ⟨["Commit: " ++ (change.commit_hash ++ "\n"),
    "Author: " ++ (change.author ++ "\n"),
    "Message: " ++ (change.commit_message ++ "\n"),
    "Files changed: " ++ (toString change.metrics.files_changed ++ "\n"),
    "Lines changed: " ++ (toString change.metrics.total_lines_changed ++ "\n"),
    "Insertions: " ++ (toString change.metrics.insertions ++ "\n"),
    "Deletions: " ++ (toString change.metrics.deletions ++ "\n"),
    "Impact score: " ++ (change.impact_score ++ "\n"),
    "Detailed file changes:\n"] ++
      l1.flatMap (fun fc => file_line fc :: fc.analysis.map analysis_line),
    l2.flatMap (fun fc => file_line fc :: fc.analysis.map analysis_line) ++
      ["\n"], ?_⟩
  simp only [commit_block_segments, hsplit, List.flatMap_append,
    List.flatMap_cons, List.cons_append, List.nil_append, List.append_assoc]

/-- C4: the per-commit blocks of the changelog user prompt obey the
detail-level gating: the Minimal block contains neither the
"File changes summary:" header nor any per-file line; the Standard block
contains that header and one `  - path (change_type)` line per file; the
Detailed block contains, for each file, its line immediately followed by
that file's analyzer observation lines. -/
theorem C4_detail_level_gating (change : AnalyzedChange) :
    ((∀ fc : FileChange,
        file_line fc ∉ commit_block_segments change DetailLevel.Minimal) ∧
      "File changes summary:\n" ∉
        commit_block_segments change DetailLevel.Minimal) ∧
    ("File changes summary:\n" ∈
        commit_block_segments change DetailLevel.Standard ∧
      ∀ fc ∈ change.file_changes,
        file_line fc ∈ commit_block_segments change DetailLevel.Standard) ∧
    (∀ fc ∈ change.file_changes,
      ∃ pre post, commit_block_segments change DetailLevel.Detailed =
        pre ++ ((file_line fc :: fc.analysis.map analysis_line) ++ post)) :=
  ⟨⟨fun fc => file_line_not_mem_minimal change fc,
      marker_not_mem_minimal change⟩,
    ⟨marker_mem_standard change,
      fun fc hfc => file_line_mem_standard change fc hfc⟩,
    fun fc hfc => detailed_block_decomp change fc hfc⟩

/-- The single annotated file change used by the C4 witness. -/
def c4_example_file : FileChange :=
  { new_path := "src/lib.rs", change_type := ChangeType.Modified,
    analysis := ["Public interface changed"] }

/-- The concrete commit used by the C4 witness. -/
def c4_example_change : AnalyzedChange :=
  { commit_hash := "abc1234", author := "dev", commit_message := "touch lib",
    metrics := { files_changed := 1, insertions := 3, deletions := 1,
                 total_lines_changed := 4 },
    impact_score := "0.10", file_changes := [c4_example_file] }

/-- C4 witness: the gating theorem applied to a concrete commit with one
file change carrying one analyzer observation. -/
theorem C4_detail_level_gating_witness :
    (file_line c4_example_file ∉
      commit_block_segments c4_example_change DetailLevel.Minimal) ∧
    (file_line c4_example_file ∈
      commit_block_segments c4_example_change DetailLevel.Standard) ∧
    (∃ pre post,
      commit_block_segments c4_example_change DetailLevel.Detailed =
        pre ++
          ((file_line c4_example_file ::
              c4_example_file.analysis.map analysis_line) ++ post)) :=
  ⟨(C4_detail_level_gating c4_example_change).1.1 c4_example_file,
    (C4_detail_level_gating c4_example_change).2.1.2 c4_example_file
      (by decide),
    (C4_detail_level_gating c4_example_change).2.2 c4_example_file
      (by decide)⟩

/-! ### System prompt structure (C5) -/

/-- C5: for every configuration, each system prompt is its fixed task text,
extended with the gitmoji block exactly when `use_gitmoji` is set and with
the user instructions exactly when they are non-empty (the changelog prompt
additionally always ends with its fixed tail). -/
theorem C5_system_prompts (config : Config) :
    create_changelog_system_prompt config =
      changelog_system_base ++
        ((if config.use_gitmoji then
            changelog_emoji_intro ++ get_gitmoji_list else "") ++
          ((if config.instructions = "" then ""
            else instructions_chunk config.instructions) ++
            changelog_system_tail)) ∧
    create_release_notes_system_prompt config =
      release_notes_system_base ++
        ((if config.use_gitmoji then
            release_notes_emoji_intro ++ get_gitmoji_list else "") ++
          (if config.instructions = "" then ""
           else instructions_chunk config.instructions)) := by
  have hie := String.isEmpty_iff config.instructions
  by_cases hi : config.instructions = ""
  · have h1 : config.instructions.isEmpty = true := hie.mpr hi
    have h0 : ("" : String).isEmpty = true := rfl
    by_cases hg : config.use_gitmoji <;>
      simp [create_changelog_system_prompt,
        create_release_notes_system_prompt, hg, hi, h0, h1,
        String.append_assoc]
  · have h1 : config.instructions.isEmpty = false := by
      cases h : config.instructions.isEmpty with
      | true => exact absurd (hie.mp h) hi
      | false => rfl
    by_cases hg : config.use_gitmoji <;>
      simp [create_changelog_system_prompt,
        create_release_notes_system_prompt, hg, hi, h1, String.append_assoc]

/-! ### Exclusion policy of the repository probe (C6, C9) -/

/-- Core property of `get_file_statuses`: every staged file it produces for
an excluded path carries the two sentinels (and the flag), and every staged
file for a non-excluded path carries the real diff and the analyzer output
on the pre-analysis record. -/
lemma get_file_statuses_exclusion {ε : Type}
    (getDiff : String → Except ε String)
    (analyze : String → StagedFile → List String) :
    ∀ (entries : List StatusEntry) (staged : List StagedFile)
      (unstaged : List String),
      get_file_statuses getDiff analyze entries =
        Except.ok (staged, unstaged) →
      ∀ sf ∈ staged,
        (should_exclude_file sf.path = true →
          sf.diff = "[Content excluded]" ∧
          sf.analysis = ["[Analysis excluded]"] ∧
          sf.content_excluded = true) ∧
        (should_exclude_file sf.path = false →
          getDiff sf.path = Except.ok sf.diff ∧
          sf.analysis =
            analyze sf.path
              { path := sf.path, change_type := sf.change_type,
                diff := sf.diff, analysis := [],
                content_excluded := false } ∧
          sf.content_excluded = false) := by
  intro entries
  induction entries with
  | nil =>
      intro staged unstaged h sf hsf
      simp only [get_file_statuses, Except.ok.injEq, Prod.mk.injEq] at h
      obtain ⟨h1, _⟩ := h
      rw [← h1] at hsf
      exact absurd hsf (List.not_mem_nil sf)
  | cons entry rest ih =>
      intro staged unstaged h sf hsf
      simp only [get_file_statuses] at h
      by_cases hidx : (entry.status.index_new || entry.status.index_modified
          || entry.status.index_deleted) = true
      · rw [if_pos hidx] at h
        by_cases hx : should_exclude_file entry.path
        · simp only [hx, if_true] at h
          cases hr : get_file_statuses getDiff analyze rest with
          | error e =>
              rw [hr] at h
              simp [Except.bind, Except.map] at h
          | ok p =>
              obtain ⟨s', u'⟩ := p
              rw [hr] at h
              simp only [Except.bind, Except.map, Except.ok.injEq,
                Prod.mk.injEq] at h
              obtain ⟨h1, _⟩ := h
              rw [← h1] at hsf
              rcases List.mem_cons.mp hsf with hsf1 | hsf2
              · subst hsf1
                constructor
                · intro _
                  exact ⟨rfl, rfl, rfl⟩
                · intro hfalse
                  simp only at hfalse
                  rw [hx] at hfalse
                  exact absurd hfalse (by decide)
              · exact ih s' u' hr sf hsf2
        · have hx' : should_exclude_file entry.path = false :=
            Bool.not_eq_true _ ▸ Bool.of_not_eq_true hx
          simp only [hx', if_false, Bool.false_eq_true] at h
          cases hd : getDiff entry.path with
          | error e =>
              rw [hd] at h
              simp [Except.bind] at h
          | ok d =>
              rw [hd] at h
              cases hr : get_file_statuses getDiff analyze rest with
              | error e =>
                  rw [hr] at h
                  simp [Except.bind, Except.map] at h
              | ok p =>
                  obtain ⟨s', u'⟩ := p
                  rw [hr] at h
                  simp only [Except.bind, Except.map, Except.ok.injEq,
                    Prod.mk.injEq] at h
                  obtain ⟨h1, _⟩ := h
                  rw [← h1] at hsf
                  rcases List.mem_cons.mp hsf with hsf1 | hsf2
                  · subst hsf1
                    constructor
                    · intro htrue
                      simp only at htrue
                      rw [hx'] at htrue
                      exact absurd htrue (by decide)
                    · intro _
                      exact ⟨hd, rfl, rfl⟩
                  · exact ih s' u' hr sf hsf2
      · rw [if_neg hidx] at h
        by_cases hwt : (entry.status.wt_modified || entry.status.wt_new
            || entry.status.wt_deleted) = true
        · rw [if_pos hwt] at h
          cases hr : get_file_statuses getDiff analyze rest with
          | error e =>
              rw [hr] at h
              simp [Except.map] at h
          | ok p =>
              obtain ⟨s', u'⟩ := p
              rw [hr] at h
              simp only [Except.map, Except.ok.injEq, Prod.mk.injEq] at h
              obtain ⟨h1, _⟩ := h
              rw [← h1] at hsf
              exact ih s' u' hr sf hsf
        · rw [if_neg hwt] at h
          exact ih staged unstaged h sf hsf

/-- C6: a staged file whose path matches the exclusion set is produced with
diff `"[Content excluded]"` and analysis `["[Analysis excluded]"]` regardless
of content; a non-matching staged file carries the real diff and the
analyzer's output. -/
theorem C6_exclusion_sentinels {ε : Type} (getDiff : String → Except ε String)
    (analyze : String → StagedFile → List String)
    (entries : List StatusEntry) (staged : List StagedFile)
    (unstaged : List String)
    (h : get_file_statuses getDiff analyze entries =
      Except.ok (staged, unstaged)) :
    ∀ sf ∈ staged,
      (should_exclude_file sf.path = true →
        sf.diff = "[Content excluded]" ∧
        sf.analysis = ["[Analysis excluded]"] ∧
        sf.content_excluded = true) ∧
      (should_exclude_file sf.path = false →
        getDiff sf.path = Except.ok sf.diff ∧
        sf.analysis =
          analyze sf.path
            { path := sf.path, change_type := sf.change_type, diff := sf.diff,
              analysis := [], content_excluded := false } ∧
        sf.content_excluded = false) :=
  get_file_statuses_exclusion getDiff analyze entries staged unstaged h

/-- Status flags of a freshly staged (index-new) entry. -/
def statusIndexNew : EntryStatus :=
  { index_new := true, index_modified := false, index_deleted := false,
    wt_new := false, wt_modified := false, wt_deleted := false }

/-- Status flags of an index-modified entry. -/
def statusIndexModified : EntryStatus :=
  { index_new := false, index_modified := true, index_deleted := false,
    wt_new := false, wt_modified := false, wt_deleted := false }

/-- The status entries of the C6 witness: one excluded path (`Cargo.lock`
matches the `\.lock` pattern) and one ordinary source file. -/
def c6_entries : List StatusEntry :=
  [{ path := "Cargo.lock", status := statusIndexNew },
   { path := "src/main.rs", status := statusIndexModified }]

/-- The diff oracle of the C6 witness. -/
def c6_getDiff : String → Except String String :=
  fun path => Except.ok ("diff of " ++ path)

/-- The analyzer oracle of the C6 witness. -/
def c6_analyze : String → StagedFile → List String :=
  fun _ _ => ["one observation"]

/-- The staged file the C6 witness expects for the excluded path. -/
def c6_staged_lock : StagedFile :=
  { path := "Cargo.lock", change_type := ChangeType.Added,
    diff := "[Content excluded]", analysis := ["[Analysis excluded]"],
    content_excluded := true }

/-- The staged file the C6 witness expects for the ordinary path. -/
def c6_staged_main : StagedFile :=
  { path := "src/main.rs", change_type := ChangeType.Modified,
    diff := "diff of src/main.rs", analysis := ["one observation"],
    content_excluded := false }

/-- C6 witness: the theorem applied to a concrete status list containing one
excluded and one ordinary staged file. -/
theorem C6_exclusion_sentinels_witness :
    (c6_staged_lock.diff = "[Content excluded]" ∧
      c6_staged_lock.analysis = ["[Analysis excluded]"] ∧
      c6_staged_lock.content_excluded = true) ∧
    (c6_getDiff c6_staged_main.path = Except.ok c6_staged_main.diff ∧
      c6_staged_main.analysis =
        c6_analyze c6_staged_main.path
          { path := c6_staged_main.path,
            change_type := c6_staged_main.change_type,
            diff := c6_staged_main.diff, analysis := [],
            content_excluded := false } ∧
      c6_staged_main.content_excluded = false) := by
  have h : get_file_statuses c6_getDiff c6_analyze c6_entries =
      Except.ok ([c6_staged_lock, c6_staged_main], []) := by rfl
  have h1 :=
    C6_exclusion_sentinels c6_getDiff c6_analyze c6_entries
      [c6_staged_lock, c6_staged_main] [] h c6_staged_lock (by decide)
  have h2 :=
    C6_exclusion_sentinels c6_getDiff c6_analyze c6_entries
      [c6_staged_lock, c6_staged_main] [] h c6_staged_main (by decide)
  exact ⟨h1.1 (by decide), h2.2 (by decide)⟩

/-! ### The commit-range walk (C7) -/

lemma except_toOption_eq_some {ε α : Type} (e : Except ε α) (a : α) :
    e.toOption = some a ↔ e = Except.ok a := by
  cases e <;> simp [Except.toOption]

/-- C7 counterexample: a walk over a single commit whose analysis fails
returns `Ok []` — the commit is silently omitted — rather than propagating
the error, contradicting the claim that the operation returns the error. -/
theorem C7_error_swallowed :
    get_commits_between [Except.ok (0 : Nat)]
        (fun id => (Except.ok id : Except String Nat))
        (fun _ => (Except.error "analysis failed" :
            Except String AnalyzedChange)) =
      Except.ok ([] : List AnalyzedChange) ∧
    get_commits_between [Except.ok (0 : Nat)]
        (fun id => (Except.ok id : Except String Nat))
        (fun _ => (Except.error "analysis failed" :
            Except String AnalyzedChange)) ≠
      Except.error "analysis failed" :=
  ⟨rfl, fun h => Except.noConfusion h⟩

/-- C7 (amended): after the revwalk is set up, `get_commits_between` never
propagates a per-commit failure: it always returns `Ok`, and every returned
change comes from a walked id whose lookup and analysis both succeeded —
commits failing either stage are silently omitted. -/
theorem C7_per_commit_errors_skipped {ε Oid Commit : Type}
    (walk : List (Except ε Oid)) (find_commit : Oid → Except ε Commit)
    (analyze_commit : Commit → Except ε AnalyzedChange) :
    ∃ l, get_commits_between walk find_commit analyze_commit =
        Except.ok l ∧
      ∀ x ∈ l, ∃ oid commit, Except.ok oid ∈ walk ∧
        find_commit oid = Except.ok commit ∧
        analyze_commit commit = Except.ok x := by
  refine ⟨_, rfl, ?_⟩
  intro x hx
  rw [List.mem_filterMap] at hx
  obtain ⟨commit, hc, hcx⟩ := hx
  rw [List.mem_filterMap] at hc
  obtain ⟨oid, ho, hoc⟩ := hc
  rw [List.mem_filterMap] at ho
  obtain ⟨w, hw, hwo⟩ := ho
  refine ⟨oid, commit, ?_, ?_, ?_⟩
  · rw [← (except_toOption_eq_some w oid).mp hwo]
    exact hw
  · exact (except_toOption_eq_some _ _).mp hoc
  · exact (except_toOption_eq_some _ _).mp hcx

/-- C7 witness: the amended theorem applied to a concrete one-commit walk
whose lookup and analysis succeed. -/
theorem C7_per_commit_errors_skipped_witness :
    ∃ l, get_commits_between [(Except.ok 0 : Except String Nat)]
        (fun id => (Except.ok id : Except String Nat))
        (fun _ => (Except.ok c4_example_change :
            Except String AnalyzedChange)) = Except.ok l ∧
      ∀ x ∈ l, ∃ oid commit,
        (Except.ok oid : Except String Nat) ∈
          [(Except.ok 0 : Except String Nat)] ∧
        (Except.ok oid : Except String Nat) = Except.ok commit ∧
        (Except.ok c4_example_change : Except String AnalyzedChange) =
          Except.ok x :=
  C7_per_commit_errors_skipped [(Except.ok 0 : Except String Nat)]
    (fun id => (Except.ok id : Except String Nat))
    (fun _ => (Except.ok c4_example_change : Except String AnalyzedChange))

/-! ### Unanchored pattern matching (C9) -/

/-- C9: the exclusion predicate matches its patterns anywhere in the path:
any path containing `target`, `build` or `dist` as a substring is excluded,
and any staged file with such a path comes out of `get_file_statuses` with
the two exclusion sentinels, ordinary source file or not. -/
theorem C9_unanchored_substring_exclusion (path : String)
    (h : ("target".data <:+: path.data) ∨ ("build".data <:+: path.data) ∨
      ("dist".data <:+: path.data)) :
    should_exclude_file path = true ∧
    (∀ {ε : Type} (getDiff : String → Except ε String)
        (analyze : String → StagedFile → List String)
        (entries : List StatusEntry) (staged : List StagedFile)
        (unstaged : List String),
      get_file_statuses getDiff analyze entries =
        Except.ok (staged, unstaged) →
      ∀ sf ∈ staged, sf.path = path →
        sf.diff = "[Content excluded]" ∧
        sf.analysis = ["[Analysis excluded]"]) := by
  have hex : should_exclude_file path = true := by
    unfold should_exclude_file
    rw [List.any_eq_true]
    rcases h with h | h | h
    · exact ⟨"target", by decide, decide_eq_true h⟩
    · exact ⟨"build", by decide, decide_eq_true h⟩
    · exact ⟨"dist", by decide, decide_eq_true h⟩
  refine ⟨hex, ?_⟩
  intro ε getDiff analyze entries staged unstaged hok sf hsf hpath
  have hc :=
    (get_file_statuses_exclusion getDiff analyze entries staged unstaged hok
      sf hsf).1 (by rw [hpath]; exact hex)
  exact ⟨hc.1, hc.2.1⟩

/-- The status entry of the C9 witness: `src/builder.rs` is an ordinary Rust
source file, yet its path contains `build`. -/
def c9_entries : List StatusEntry :=
  [{ path := "src/builder.rs", status := statusIndexModified }]

/-- The staged file the C9 witness expects: `src/builder.rs` comes out with
both sentinels. -/
def c9_staged_builder : StagedFile :=
  { path := "src/builder.rs", change_type := ChangeType.Modified,
    diff := "[Content excluded]", analysis := ["[Analysis excluded]"],
    content_excluded := true }

/-- C9 witness: the theorem applied to `src/builder.rs` and `src/distance.rs`
(which contain `build` and `dist`), with the sentinel consequence evaluated
on a concrete status list. -/
theorem C9_unanchored_substring_exclusion_witness :
    should_exclude_file "src/builder.rs" = true ∧
    should_exclude_file "src/distance.rs" = true ∧
    (c9_staged_builder.diff = "[Content excluded]" ∧
      c9_staged_builder.analysis = ["[Analysis excluded]"]) := by
  have h : get_file_statuses c6_getDiff c6_analyze c9_entries =
      Except.ok ([c9_staged_builder], []) := by rfl
  refine ⟨(C9_unanchored_substring_exclusion "src/builder.rs"
      (Or.inr (Or.inl (by decide)))).1,
    (C9_unanchored_substring_exclusion "src/distance.rs"
      (Or.inr (Or.inr (by decide)))).1,
    (C9_unanchored_substring_exclusion "src/builder.rs"
      (Or.inr (Or.inl (by decide)))).2 c6_getDiff c6_analyze c9_entries
      [c9_staged_builder] [] h c9_staged_builder (by decide) (by decide)⟩

/-! ### Configuration update (C8, C10) -/

lemma lookup_assocInsert {α : Type} (m : List (String × α)) (k : String)
    (v : α) : (assocInsert m k v).lookup k = some v := by
  simp [assocInsert, List.lookup_cons]

/-- C8: whenever `Config::update` returns normally, the providers map has an
entry for the (possibly newly set) default provider; a supplied provider name
becomes the default and is guaranteed an entry, and a supplied name that was
not previously present gets the registry-default `ProviderConfig` (shown here
in the case where no field updates are requested). -/
theorem C8_update_keeps_default_provider_entry
    (gdm : String → Option String) (cfg : Config)
    (provider api_key model : Option String)
    (additional_params : Option (List (String × String)))
    (use_gitmoji : Option Bool) (custom_instructions : Option String)
    (token_limit : Option Nat) (cfg' : Config)
    (h : Config.update gdm cfg provider api_key model additional_params
      use_gitmoji custom_instructions token_limit = some cfg') :
    (cfg'.providers.lookup cfg'.default_provider).isSome = true ∧
    (∀ p, provider = some p → cfg'.default_provider = p ∧
      (cfg'.providers.lookup p).isSome = true) ∧
    (∀ p dm, provider = some p → cfg.providers.lookup p = none →
      gdm p = some dm → api_key = none → model = none →
      additional_params = none → token_limit = none →
      cfg'.providers.lookup p =
        some { api_key := "", model := dm, additional_params := [],
               custom_token_limit := none }) := by
  unfold Config.update at h
  rcases provider with _ | p
  · cases hl : cfg.providers.lookup cfg.default_provider with
    | none => simp [hl] at h
    | some pc =>
        simp only [hl, Option.some_bind] at h
        rw [Option.some_inj] at h
        subst h
        refine ⟨?_, ?_, ?_⟩
        · rcases use_gitmoji with _ | g <;>
            rcases custom_instructions with _ | ins <;>
              simp [lookup_assocInsert]
        · intro q hq
          exact absurd hq (by simp)
        · intro q dm hq
          exact absurd hq (by simp)
  · by_cases hk : (cfg.providers.lookup p).isSome = true
    · obtain ⟨pc, hl⟩ := Option.isSome_iff_exists.mp hk
      simp only [hl, Option.isSome_some, if_true, Option.some_bind] at h
      rw [Option.some_inj] at h
      subst h
      refine ⟨?_, ?_, ?_⟩
      · rcases use_gitmoji with _ | g <;>
          rcases custom_instructions with _ | ins <;>
            simp [lookup_assocInsert]
      · intro q hq
        rw [Option.some_inj] at hq
        subst hq
        rcases use_gitmoji with _ | g <;>
          rcases custom_instructions with _ | ins <;>
            simp [lookup_assocInsert]
      · intro q dm hq hnone
        rw [Option.some_inj] at hq
        subst hq
        rw [hnone] at hl
        exact absurd hl (by simp)
    · have hk2 : cfg.providers.lookup p = none := by
        cases hlp : cfg.providers.lookup p with
        | none => rfl
        | some pc => rw [hlp] at hk; exact absurd rfl hk
      simp only [hk2, Option.isSome_none, Bool.false_eq_true, if_false] at h
      cases hdm : gdm p with
      | none =>
          simp [ProviderConfig.default_for, hdm] at h
      | some dm =>
          simp only [ProviderConfig.default_for, hdm, Option.some_bind,
            lookup_assocInsert] at h
          rw [Option.some_inj] at h
          subst h
          refine ⟨?_, ?_, ?_⟩
          · rcases use_gitmoji with _ | g <;>
              rcases custom_instructions with _ | ins <;>
                simp [lookup_assocInsert]
          · intro q hq
            rw [Option.some_inj] at hq
            subst hq
            rcases use_gitmoji with _ | g <;>
              rcases custom_instructions with _ | ins <;>
                simp [lookup_assocInsert]
          · intro q dm2 hq hn hdm2 hak hm hap htl
            rw [Option.some_inj] at hq
            subst hq
            rw [hdm] at hdm2
            rw [Option.some_inj] at hdm2
            subst hdm2
            subst hak
            subst hm
            subst hap
            subst htl
            rcases use_gitmoji with _ | g <;>
              rcases custom_instructions with _ | ins <;>
                simp [lookup_assocInsert]

/-- A configuration whose providers map holds only "openai". -/
def cfg_openai_only : Config :=
  { default_provider := "openai",
    providers := [("openai",
      { api_key := "k", model := "m", additional_params := [],
        custom_token_limit := none })],
    use_gitmoji := false, instructions := "" }

/-- The configuration produced by updating `cfg_openai_only` with provider
"claude" and no field updates. -/
def cfg_after_claude : Config :=
  { default_provider := "claude",
    providers := [("claude",
      { api_key := "", model := "claude-default-model",
        additional_params := [], custom_token_limit := none }),
      ("openai",
      { api_key := "k", model := "m", additional_params := [],
        custom_token_limit := none })],
    use_gitmoji := false, instructions := "" }

/-- C8 witness: the theorem applied to a concrete update that switches the
default provider to the previously absent "claude". -/
theorem C8_update_keeps_default_provider_entry_witness :
    (cfg_after_claude.providers.lookup
        cfg_after_claude.default_provider).isSome = true ∧
    cfg_after_claude.default_provider = "claude" ∧
    (cfg_after_claude.providers.lookup "claude").isSome = true ∧
    cfg_after_claude.providers.lookup "claude" =
      some { api_key := "", model := "claude-default-model",
             additional_params := [], custom_token_limit := none } := by
  have h : Config.update registry_default_models cfg_openai_only
      (some "claude") none none none none none none =
      some cfg_after_claude := by decide
  have hc := C8_update_keeps_default_provider_entry registry_default_models
    cfg_openai_only (some "claude") none none none none none none
    cfg_after_claude h
  exact ⟨hc.1, (hc.2.1 "claude" rfl).1, (hc.2.1 "claude" rfl).2,
    hc.2.2 "claude" "claude-default-model" rfl (by decide) rfl rfl rfl rfl
      rfl⟩

/-- C10 counterexample: called with `provider = Some "groq"` — so the claim's
precondition "provider is Some" holds — `Config::update` still panics
(modelled as `none`), inside `ProviderConfig::default_for`, because the
registry has no default model for "groq". -/
theorem C10_update_panics_with_unknown_provider :
    Config.update registry_default_models cfg_openai_only (some "groq")
      none none none none none none = none := by
  decide

/-- C10 (amended): `Config::update` panics via the `.unwrap()` exactly in the
claimed situation — `provider = None` with no entry for the current default —
and under the claimed precondition it never reaches that unwrap; but with
`provider = Some p` it is panic-free only when `p` is already a key of the
providers map or the registry knows a default model for `p`; otherwise
`ProviderConfig::default_for` panics. -/
theorem C10_update_panic_conditions (gdm : String → Option String)
    (cfg : Config) (api_key model : Option String)
    (additional_params : Option (List (String × String)))
    (use_gitmoji : Option Bool) (custom_instructions : Option String)
    (token_limit : Option Nat) :
    (cfg.providers.lookup cfg.default_provider = none →
      Config.update gdm cfg none api_key model additional_params use_gitmoji
        custom_instructions token_limit = none) ∧
    ((cfg.providers.lookup cfg.default_provider).isSome = true →
      (Config.update gdm cfg none api_key model additional_params use_gitmoji
        custom_instructions token_limit).isSome = true) ∧
    (∀ p, ((cfg.providers.lookup p).isSome = true ∨ (gdm p).isSome = true) →
      (Config.update gdm cfg (some p) api_key model additional_params
        use_gitmoji custom_instructions token_limit).isSome = true) := by
  refine ⟨?_, ?_, ?_⟩
  · intro hl
    simp [Config.update, hl]
  · intro hk
    obtain ⟨pc, hl⟩ := Option.isSome_iff_exists.mp hk
    simp [Config.update, hl]
  · intro p hp
    by_cases hk : (cfg.providers.lookup p).isSome = true
    · obtain ⟨pc, hl⟩ := Option.isSome_iff_exists.mp hk
      simp [Config.update, hl]
    · have hk2 : cfg.providers.lookup p = none := by
        cases hlp : cfg.providers.lookup p with
        | none => rfl
        | some pc => rw [hlp] at hk; exact absurd rfl hk
      rcases hp with hp | hp
      · exact absurd hp hk
      · obtain ⟨dm, hdm⟩ := Option.isSome_iff_exists.mp hp
        simp [Config.update, hk2, ProviderConfig.default_for, hdm,
          lookup_assocInsert]

/-- A configuration whose providers map lacks its own default provider. -/
def cfg_no_default : Config :=
  { default_provider := "missing", providers := [], use_gitmoji := false,
    instructions := "" }

/-- C10 witness: the amended theorem applied to concrete configurations —
the unwrap panic fires on `cfg_no_default`, and both panic-free cases
succeed on `cfg_openai_only`. -/
theorem C10_update_panic_conditions_witness :
    (Config.update registry_default_models cfg_no_default none none none
      none none none none = none) ∧
    ((Config.update registry_default_models cfg_openai_only none none none
      none none none none).isSome = true) ∧
    ((Config.update registry_default_models cfg_openai_only (some "claude")
      none none none none none none).isSome = true) :=
  ⟨(C10_update_panic_conditions registry_default_models cfg_no_default
      none none none none none none).1 (by decide),
    (C10_update_panic_conditions registry_default_models cfg_openai_only
      none none none none none none).2.1 (by decide),
    (C10_update_panic_conditions registry_default_models cfg_openai_only
      none none none none none none).2.2 "claude" (Or.inr (by decide))⟩
